import Mathlib

/-!
Shallow embedding of the countdown-timer state machine of
`src/src/countdown.c` (Pebble watch countdown app).

The mutable globals of the C file (`current_mode`, `init_val`, `curr_val`,
`timer_running`, `seconds`) become the fields of `TimerState`.  Each button
or tick handler becomes a function `TimerState → TimerState × List Effect`,
where `Effect` records every call to the platform UI layer (button icons,
text-layer colors, redisplay requests, vibration) in the order the C code
issues them.  Display caching inside `redisplay_min`/`redisplay_sec`
(static `last_min`/`last_sec`) is modelled as an unconditional redisplay
request, since it only suppresses redundant drawing.
-/

namespace Countdown

/-- The `Modes` enum of the C file: editing seconds, editing minutes, run. -/
inductive Modes
  | MODE_EDIT_SEC
  | MODE_EDIT_MIN
  | MODE_RUN
deriving DecidableEq, Repr

/-- The `CounterData` struct: a minutes/seconds pair. -/
structure CounterData where
  min : Int
  sec : Int
deriving DecidableEq, Repr

/-- Pebble `ButtonId` values used by the program. -/
inductive ButtonId
  | BUTTON_ID_BACK
  | BUTTON_ID_UP
  | BUTTON_ID_SELECT
  | BUTTON_ID_DOWN
deriving DecidableEq, Repr

/-- Icon resources passed to `display_button`. -/
inductive IconRes
  | START_IMAGE
  | PAUSE_IMAGE
  | RESET_IMAGE
  | PLUS_IMAGE
  | MINUS_IMAGE
  | MODE_IMAGE
deriving DecidableEq, Repr

/-- The two colors the program uses on its text layers. -/
inductive GColor
  | GColorWhite
  | GColorBlack
deriving DecidableEq, Repr

/-- Text layers whose colors the handlers mutate. -/
inductive LayerId
  | text_min_layer
  | text_sec_layer
  | text_times_up_layer
deriving DecidableEq, Repr

/-- One call into the platform UI layer, in program order. -/
inductive Effect
  | display_button : ButtonId → IconRes → Effect
  | remove_button : ButtonId → Effect
  | set_text_color : LayerId → GColor → Effect
  | set_background_color : LayerId → GColor → Effect
  | redisplay_min : Effect
  | redisplay_sec : Effect
  | vibes_enqueue : List Nat → Effect
deriving DecidableEq, Repr

/-- The mutable globals of `countdown.c` gathered into one state record. -/
structure TimerState where
  current_mode : Modes
  init_val : CounterData
  curr_val : CounterData
  timer_running : Bool
  seconds : Int
deriving DecidableEq, Repr

/-- The `timer_done_vibe` pattern: 17 segments of on/off milliseconds. -/
def timer_done_vibe : List Nat :=
  [75, 200, 75, 200, 75, 500, 75, 200, 75, 200, 75, 500, 75, 200, 75, 200, 75]

/-- The `up_single_click_handler` of the C file. -/
def up_single_click_handler (s : TimerState) : TimerState × List Effect :=
  match s.current_mode with
  | .MODE_EDIT_SEC =>
    let v := if s.init_val.sec = 59 then 0 else s.init_val.sec + 1
    ({ s with init_val := { s.init_val with sec := v },
              curr_val := { s.curr_val with sec := v } },
     [.redisplay_sec])
  | .MODE_EDIT_MIN =>
    let v := if s.init_val.min = 59 then 0 else s.init_val.min + 1
    ({ s with init_val := { s.init_val with min := v },
              curr_val := { s.curr_val with min := v } },
     [.redisplay_min])
  | .MODE_RUN =>
    if s.timer_running = false then
      let secs := s.curr_val.min * 60 + s.curr_val.sec
      if secs ≠ 0 then
        ({ s with seconds := secs, timer_running := true },
         [.display_button .BUTTON_ID_UP .PAUSE_IMAGE,
          .remove_button .BUTTON_ID_SELECT,
          .remove_button .BUTTON_ID_DOWN])
      else
        ({ s with seconds := secs, timer_running := false }, [])
    else
      ({ s with timer_running := false },
       [.display_button .BUTTON_ID_UP .START_IMAGE,
        .display_button .BUTTON_ID_SELECT .MODE_IMAGE,
        .display_button .BUTTON_ID_DOWN .RESET_IMAGE])

/-- The `select_single_click_handler` of the C file. -/
def select_single_click_handler (s : TimerState) : TimerState × List Effect :=
  match s.current_mode with
  | .MODE_EDIT_SEC =>
    ({ s with current_mode := .MODE_EDIT_MIN },
     [.set_text_color .text_sec_layer .GColorWhite,
      .set_background_color .text_sec_layer .GColorBlack,
      .set_text_color .text_min_layer .GColorBlack,
      .set_background_color .text_min_layer .GColorWhite])
  | .MODE_EDIT_MIN =>
    ({ s with current_mode := .MODE_EDIT_SEC },
     [.set_text_color .text_sec_layer .GColorBlack,
      .set_background_color .text_sec_layer .GColorWhite,
      .set_text_color .text_min_layer .GColorWhite,
      .set_background_color .text_min_layer .GColorBlack])
  | .MODE_RUN => (s, [])

/-- The `select_long_click_handler` of the C file. -/
def select_long_click_handler (s : TimerState) : TimerState × List Effect :=
  match s.current_mode with
  | .MODE_EDIT_SEC =>
    ({ s with current_mode := .MODE_RUN },
     [.set_text_color .text_sec_layer .GColorWhite,
      .set_background_color .text_sec_layer .GColorBlack,
      .display_button .BUTTON_ID_UP .START_IMAGE,
      .display_button .BUTTON_ID_DOWN .RESET_IMAGE])
  | .MODE_EDIT_MIN =>
    ({ s with current_mode := .MODE_RUN },
     [.set_text_color .text_min_layer .GColorWhite,
      .set_background_color .text_min_layer .GColorBlack,
      .display_button .BUTTON_ID_UP .START_IMAGE,
      .display_button .BUTTON_ID_DOWN .RESET_IMAGE,
      .redisplay_min, .redisplay_sec])
  | .MODE_RUN =>
    if s.timer_running = false then
      ({ s with current_mode := .MODE_EDIT_MIN, curr_val := s.init_val },
       [.set_background_color .text_times_up_layer .GColorBlack,
        .set_text_color .text_min_layer .GColorBlack,
        .set_background_color .text_min_layer .GColorWhite,
        .display_button .BUTTON_ID_UP .PLUS_IMAGE,
        .display_button .BUTTON_ID_SELECT .MODE_IMAGE,
        .display_button .BUTTON_ID_DOWN .MINUS_IMAGE,
        .redisplay_min, .redisplay_sec])
    else (s, [])

/-- The `down_single_click_handler` of the C file.  Note that the C code
clears the times-up banner (`text_layer_set_background_color` on the
times-up layer) unconditionally, before switching on the mode. -/
def down_single_click_handler (s : TimerState) : TimerState × List Effect :=
  let pre : List Effect := [.set_background_color .text_times_up_layer .GColorBlack]
  match s.current_mode with
  | .MODE_EDIT_SEC =>
    let v := if s.init_val.sec = 0 then 59 else s.init_val.sec - 1
    ({ s with init_val := { s.init_val with sec := v },
              curr_val := { s.curr_val with sec := v } },
     pre ++ [.redisplay_sec])
  | .MODE_EDIT_MIN =>
    let v := if s.init_val.min = 0 then 59 else s.init_val.min - 1
    ({ s with init_val := { s.init_val with min := v },
              curr_val := { s.curr_val with min := v } },
     pre ++ [.redisplay_min])
  | .MODE_RUN =>
    if s.timer_running = false then
      ({ s with curr_val := s.init_val },
       pre ++ (if s.init_val.sec + s.init_val.min ≠ 0 then
                 [.display_button .BUTTON_ID_UP .START_IMAGE,
                  .display_button .BUTTON_ID_SELECT .MODE_IMAGE]
               else [])
           ++ [.redisplay_min, .redisplay_sec])
    else (s, pre)

/-- The `decrement_timer` function: decrements `seconds` when positive,
updates the displayed pair from the new count, and returns whether the
count is now zero. -/
def decrement_timer (s : TimerState) : TimerState × List Effect × Bool :=
  if s.seconds > 0 then
    let secs := s.seconds - 1
    ({ s with seconds := secs, curr_val := { min := secs / 60, sec := secs % 60 } },
     [.redisplay_min, .redisplay_sec], secs == 0)
  else
    ({ s with seconds := 0 }, [], true)

/-- The `handle_second_tick` handler: no-op unless the timer is running;
otherwise decrement, and on reaching zero fire the times-up sequence
(banner on, icons, vibration, auto-reset to the edit values, banner off). -/
def handle_second_tick (s : TimerState) : TimerState × List Effect :=
  if s.timer_running = true then
    match decrement_timer s with
    | (s1, effs, done) =>
      if done then
        ({ s1 with timer_running := false, curr_val := s1.init_val },
         effs ++ [.set_background_color .text_times_up_layer .GColorWhite,
                  .remove_button .BUTTON_ID_UP,
                  .display_button .BUTTON_ID_DOWN .RESET_IMAGE,
                  .vibes_enqueue timer_done_vibe]
              ++ (if s1.init_val.sec + s1.init_val.min ≠ 0 then
                    [.display_button .BUTTON_ID_UP .START_IMAGE,
                     .display_button .BUTTON_ID_SELECT .MODE_IMAGE]
                  else [])
              ++ [.redisplay_min, .redisplay_sec,
                  .set_background_color .text_times_up_layer .GColorBlack])
      else (s1, effs)
  else (s, [])

/-- Input events delivered to the state machine. -/
inductive Event
  | Up
  | Down
  | SelectShort
  | SelectLong
  | Tick
deriving DecidableEq, Repr

/-- Dispatch of events to the handlers, as registered in
`set_click_config_provider` and `tick_timer_service_subscribe`. -/
def handle_event (e : Event) (s : TimerState) : TimerState × List Effect :=
  match e with
  | .Up => up_single_click_handler s
  | .Down => down_single_click_handler s
  | .SelectShort => select_single_click_handler s
  | .SelectLong => select_long_click_handler s
  | .Tick => handle_second_tick s

/-- State part of one event step. -/
def step (e : Event) (s : TimerState) : TimerState :=
  (handle_event e s).1

/-- Effect list emitted by one event step. -/
def effectsOf (e : Event) (s : TimerState) : List Effect :=
  (handle_event e s).2

/-- The startup state of the globals: run mode, one minute, not running. -/
def init_state : TimerState :=
  { current_mode := .MODE_RUN,
    init_val := { min := 1, sec := 0 },
    curr_val := { min := 1, sec := 0 },
    timer_running := false,
    seconds := 0 }

/-- Run a sequence of events from the startup state. -/
def run (es : List Event) : TimerState :=
  es.foldl (fun s e => step e s) init_state

/-- A state is reachable when some event sequence produces it. -/
def Reachable (s : TimerState) : Prop :=
  ∃ es : List Event, run es = s

/-- Recognizer for the vibration effect. -/
def isVibe : Effect → Bool
  | .vibes_enqueue _ => true
  | _ => false

/-- Number of vibration requests in an effect list. -/
def vibeCount (l : List Effect) : Nat :=
  (l.filter isVibe).length

/-- Indices, among the first `n` ticks delivered from `s`, of the ticks
that emit a vibration (the times-up effect).  Index `k` stands for the
tick applied to the state after `k` earlier ticks. -/
def fireTicks (s : TimerState) (n : Nat) : List Nat :=
  (List.range n).filter (fun k => 0 < vibeCount (effectsOf .Tick ((step .Tick)^[k] s)))

/-- The modulo-60 increment performed by `up_single_click_handler` in the
edit modes (`v == 59 ? 0 : v + 1`). -/
def incWrap (n : Int) : Int := if n = 59 then 0 else n + 1

/-- The modulo-60 decrement performed by `down_single_click_handler` in the
edit modes (`v == 0 ? 59 : v - 1`). -/
def decWrap (n : Int) : Int := if n = 0 then 59 else n - 1

/-- Inductive invariant of the reachable states: edit and displayed values
stay in range, the count stays in range, edit modes imply an idle timer
with synchronized values, a zero edit pair implies a zero displayed pair
and an idle timer, and a running timer has a positive count consistent
with the displayed pair. -/
def Inv (s : TimerState) : Prop :=
  (0 ≤ s.init_val.min ∧ s.init_val.min ≤ 59) ∧
  (0 ≤ s.init_val.sec ∧ s.init_val.sec ≤ 59) ∧
  (0 ≤ s.curr_val.min ∧ s.curr_val.min ≤ 59) ∧
  (0 ≤ s.curr_val.sec ∧ s.curr_val.sec ≤ 59) ∧
  (0 ≤ s.seconds ∧ s.seconds ≤ 3599) ∧
  (s.current_mode ≠ .MODE_RUN → s.timer_running = false ∧ s.curr_val = s.init_val) ∧
  ((s.init_val.min = 0 ∧ s.init_val.sec = 0) →
      (s.curr_val = s.init_val ∧ s.timer_running = false)) ∧
  (s.timer_running = true →
      1 ≤ s.seconds ∧ s.curr_val.min * 60 + s.curr_val.sec = s.seconds)

end Countdown
namespace Countdown

theorem Inv_init_state : Inv init_state := by unfold Inv; decide

set_option maxHeartbeats 2000000 in
theorem Inv_step (e : Event) (s : TimerState) (h : Inv s) : Inv (step e s) := by
  obtain ⟨mode, ⟨imin, isec⟩, ⟨cmin, csec⟩, running, secs⟩ := s
  simp only [Inv] at h ⊢
  obtain ⟨h1, h2, h3, h4, h5, h6, h7, h8⟩ := h
  cases e <;> cases mode <;> cases running <;>
    simp only [step, handle_event, up_single_click_handler, down_single_click_handler,
      select_single_click_handler, select_long_click_handler, handle_second_tick,
      decrement_timer] <;>
    (try split_ifs) <;>
    (try simp_all [CounterData.mk.injEq, beq_iff_eq]) <;>
    omega

end Countdown

namespace Countdown

theorem Inv_run (es : List Event) : Inv (run es) := by
  suffices h : ∀ (l : List Event) (t : TimerState),
      Inv t → Inv (l.foldl (fun a e => step e a) t) by
    exact h es init_state Inv_init_state
  intro l
  induction l with
  | nil => intro t ht; exact ht
  | cons e l ih => intro t ht; exact ih _ (Inv_step e t ht)

theorem reachable_Inv (s : TimerState) (h : Reachable s) : Inv s := by
  obtain ⟨es, rfl⟩ := h
  exact Inv_run es

/-- Claim C3: editing is unreachable while the timer is running. -/
theorem C3_no_edit_while_running (s : TimerState) (hs : Reachable s)
    (hm : s.current_mode = .MODE_EDIT_SEC ∨ s.current_mode = .MODE_EDIT_MIN) :
    s.timer_running = false := by
  have h := reachable_Inv s hs
  simp only [Inv] at h
  rcases hm with hm | hm
  · exact (h.2.2.2.2.2.1 (by simp [hm])).1
  · exact (h.2.2.2.2.2.1 (by simp [hm])).1

theorem C3_witness :
    (run [Event.SelectLong]).current_mode = Modes.MODE_EDIT_MIN ∧
    (run [Event.SelectLong]).timer_running = false :=
  ⟨by decide, C3_no_edit_while_running (run [Event.SelectLong])
    ⟨[Event.SelectLong], rfl⟩ (Or.inr (by decide))⟩

/-- Claim C7: reachable states keep the edit values in range and the count nonnegative. -/
theorem C7_ranges (s : TimerState) (hs : Reachable s) :
    (0 ≤ s.init_val.min ∧ s.init_val.min ≤ 59) ∧
    (0 ≤ s.init_val.sec ∧ s.init_val.sec ≤ 59) ∧
    0 ≤ s.seconds := by
  have h := reachable_Inv s hs
  simp only [Inv] at h
  exact ⟨h.1, h.2.1, h.2.2.2.2.1.1⟩

theorem C7_ranges_witness :
    (0 ≤ init_state.init_val.min ∧ init_state.init_val.min ≤ 59) ∧
    (0 ≤ init_state.init_val.sec ∧ init_state.init_val.sec ≤ 59) ∧
    0 ≤ init_state.seconds :=
  C7_ranges init_state ⟨[], rfl⟩

/-- Claim C8: from a reachable idle run state whose stored edit pair is zero,
the Up event does not start the timer. -/
theorem C8_zero_duration_guard (s : TimerState) (hs : Reachable s)
    (hm : s.current_mode = .MODE_RUN) (hr : s.timer_running = false)
    (h0 : s.init_val.min = 0 ∧ s.init_val.sec = 0) :
    (step .Up s).timer_running = false := by
  have h := reachable_Inv s hs
  simp only [Inv] at h
  have hcurr : s.curr_val = s.init_val := (h.2.2.2.2.2.2.1 h0).1
  have hc : s.curr_val.min * 60 + s.curr_val.sec = 0 := by
    rw [hcurr, h0.1, h0.2]; ring
  simp [step, handle_event, up_single_click_handler, hm, hr, hc]

theorem C8_zero_duration_guard_witness :
    (run [Event.SelectLong, Event.Down, Event.SelectLong]).current_mode = Modes.MODE_RUN ∧
    (run [Event.SelectLong, Event.Down, Event.SelectLong]).init_val.min = 0 ∧
    (run [Event.SelectLong, Event.Down, Event.SelectLong]).init_val.sec = 0 ∧
    (step .Up (run [Event.SelectLong, Event.Down, Event.SelectLong])).timer_running = false :=
  ⟨by decide, by decide, by decide,
    C8_zero_duration_guard (run [Event.SelectLong, Event.Down, Event.SelectLong])
      ⟨[Event.SelectLong, Event.Down, Event.SelectLong], rfl⟩
      (by decide) (by decide) ⟨by decide, by decide⟩⟩

/-- Claim C9: in a running run state, Up pauses the timer, leaves every stored
value unchanged, and emits exactly the Start, Mode and Reset icon requests. -/
theorem C9_pause_frame (s : TimerState) (hm : s.current_mode = .MODE_RUN)
    (hr : s.timer_running = true) :
    step .Up s = { s with timer_running := false } ∧
    effectsOf .Up s =
      [.display_button .BUTTON_ID_UP .START_IMAGE,
       .display_button .BUTTON_ID_SELECT .MODE_IMAGE,
       .display_button .BUTTON_ID_DOWN .RESET_IMAGE] := by
  constructor <;> simp [step, effectsOf, handle_event, up_single_click_handler, hm, hr]

theorem C9_pause_frame_witness :
    step .Up (⟨.MODE_RUN, ⟨1,0⟩, ⟨0,45⟩, true, 45⟩ : TimerState) =
      (⟨.MODE_RUN, ⟨1,0⟩, ⟨0,45⟩, false, 45⟩ : TimerState) ∧
    effectsOf .Up (⟨.MODE_RUN, ⟨1,0⟩, ⟨0,45⟩, true, 45⟩ : TimerState) =
      [.display_button .BUTTON_ID_UP .START_IMAGE,
       .display_button .BUTTON_ID_SELECT .MODE_IMAGE,
       .display_button .BUTTON_ID_DOWN .RESET_IMAGE] :=
  C9_pause_frame (⟨.MODE_RUN, ⟨1,0⟩, ⟨0,45⟩, true, 45⟩ : TimerState) rfl rfl

end Countdown

namespace Countdown

/-- Claim C6 counterexample: in a running run state, the Down event is not
effect-free, since the handler unconditionally clears the times-up
banner before dispatching on the mode. -/
theorem C6_counterexample :
    effectsOf .Down (⟨.MODE_RUN, ⟨1,0⟩, ⟨0,30⟩, true, 30⟩ : TimerState) ≠
      ([] : List Effect) := by
  decide

/-- Claim C6, amended: in a running run state, Down leaves the state unchanged
but emits the clear-banner display request; short and long Select are
strict no-ops with no effects. -/
theorem C6_amended_noops (s : TimerState) (hm : s.current_mode = .MODE_RUN)
    (hr : s.timer_running = true) :
    step .Down s = s ∧
    effectsOf .Down s = [.set_background_color .text_times_up_layer .GColorBlack] ∧
    step .SelectShort s = s ∧ effectsOf .SelectShort s = [] ∧
    step .SelectLong s = s ∧ effectsOf .SelectLong s = [] := by
  refine ⟨?_, ?_, ?_, ?_, ?_, ?_⟩ <;>
    simp [step, effectsOf, handle_event, down_single_click_handler,
      select_single_click_handler, select_long_click_handler, hm, hr]

theorem C6_amended_noops_witness :
    step .Down (⟨.MODE_RUN, ⟨2,0⟩, ⟨1,30⟩, true, 90⟩ : TimerState) =
      (⟨.MODE_RUN, ⟨2,0⟩, ⟨1,30⟩, true, 90⟩ : TimerState) ∧
    effectsOf .Down (⟨.MODE_RUN, ⟨2,0⟩, ⟨1,30⟩, true, 90⟩ : TimerState) =
      [.set_background_color .text_times_up_layer .GColorBlack] ∧
    step .SelectShort (⟨.MODE_RUN, ⟨2,0⟩, ⟨1,30⟩, true, 90⟩ : TimerState) =
      (⟨.MODE_RUN, ⟨2,0⟩, ⟨1,30⟩, true, 90⟩ : TimerState) ∧
    effectsOf .SelectShort (⟨.MODE_RUN, ⟨2,0⟩, ⟨1,30⟩, true, 90⟩ : TimerState) = [] ∧
    step .SelectLong (⟨.MODE_RUN, ⟨2,0⟩, ⟨1,30⟩, true, 90⟩ : TimerState) =
      (⟨.MODE_RUN, ⟨2,0⟩, ⟨1,30⟩, true, 90⟩ : TimerState) ∧
    effectsOf .SelectLong (⟨.MODE_RUN, ⟨2,0⟩, ⟨1,30⟩, true, 90⟩ : TimerState) = [] :=
  C6_amended_noops (⟨.MODE_RUN, ⟨2,0⟩, ⟨1,30⟩, true, 90⟩ : TimerState) rfl rfl

/-- Claim C1 counterexample: after starting, one tick and a pause, the state is
an idle run state whose displayed pair differs from the stored edit pair,
and Up then loads a count different from `edit_minutes*60+edit_seconds`. -/
theorem C1_counterexample :
    (run [.Up, .Tick, .Up]).current_mode = .MODE_RUN ∧
    (run [.Up, .Tick, .Up]).timer_running = false ∧
    (step .Up (run [.Up, .Tick, .Up])).seconds ≠
      (run [.Up, .Tick, .Up]).init_val.min * 60 +
        (run [.Up, .Tick, .Up]).init_val.sec := by
  refine ⟨by decide, by decide, by decide⟩

/-- Claim C1, amended: in a reachable idle run state, Up loads the count from
the displayed pair (which coincides with the stored edit pair except after
a pause), and starts the timer exactly when that value is positive. -/
theorem C1_amended_start (s : TimerState) (hs : Reachable s)
    (hm : s.current_mode = .MODE_RUN) (hr : s.timer_running = false) :
    (step .Up s).seconds = s.curr_val.min * 60 + s.curr_val.sec ∧
    ((step .Up s).timer_running = true ↔
      0 < s.curr_val.min * 60 + s.curr_val.sec) := by
  have h := reachable_Inv s hs
  simp only [Inv] at h
  have hc0 : 0 ≤ s.curr_val.min * 60 + s.curr_val.sec := by
    have h3 := h.2.2.1
    have h4 := h.2.2.2.1
    omega
  by_cases hz : s.curr_val.min * 60 + s.curr_val.sec = 0
  · constructor
    · simp [step, handle_event, up_single_click_handler, hm, hr, hz]
    · simp [step, handle_event, up_single_click_handler, hm, hr, hz]
  · constructor
    · simp [step, handle_event, up_single_click_handler, hm, hr, hz]
    · simp [step, handle_event, up_single_click_handler, hm, hr, hz]
      omega

theorem C1_amended_start_witness :
    init_state.current_mode = .MODE_RUN ∧
    init_state.timer_running = false ∧
    (step .Up init_state).seconds =
      init_state.curr_val.min * 60 + init_state.curr_val.sec ∧
    ((step .Up init_state).timer_running = true ↔
      0 < init_state.curr_val.min * 60 + init_state.curr_val.sec) :=
  ⟨rfl, rfl, (C1_amended_start init_state ⟨[], rfl⟩ rfl rfl).1,
    (C1_amended_start init_state ⟨[], rfl⟩ rfl rfl).2⟩

/-- Claim C10: pausing a running timer and pressing Up again restarts the
countdown from the displayed pair, which equals the paused count, and the
timer runs again. -/
theorem C10_resume_from_pause (s : TimerState) (hs : Reachable s)
    (hm : s.current_mode = .MODE_RUN) (hr : s.timer_running = true) :
    (step .Up (step .Up s)).seconds =
      (step .Up s).curr_val.min * 60 + (step .Up s).curr_val.sec ∧
    (step .Up (step .Up s)).seconds = s.seconds ∧
    (step .Up (step .Up s)).timer_running = true := by
  have h := reachable_Inv s hs
  simp only [Inv] at h
  obtain ⟨hsec1, hsum⟩ := h.2.2.2.2.2.2.2 hr
  have hpause : step .Up s = { s with timer_running := false } := by
    simp [step, handle_event, up_single_click_handler, hm, hr]
  rw [hpause]
  have hz : ¬(s.curr_val.min * 60 + s.curr_val.sec = 0) := by omega
  refine ⟨?_, ?_, ?_⟩
  · simp [step, handle_event, up_single_click_handler, hm, hz]
  · simp [step, handle_event, up_single_click_handler, hm, hz]
    omega
  · simp [step, handle_event, up_single_click_handler, hm, hz]

theorem C10_resume_from_pause_witness :
    (run [Event.Up]).current_mode = .MODE_RUN ∧
    (run [Event.Up]).timer_running = true ∧
    (step .Up (step .Up (run [Event.Up]))).seconds =
      (step .Up (run [Event.Up])).curr_val.min * 60 +
        (step .Up (run [Event.Up])).curr_val.sec ∧
    (step .Up (step .Up (run [Event.Up]))).seconds = (run [Event.Up]).seconds ∧
    (step .Up (step .Up (run [Event.Up]))).timer_running = true :=
  ⟨by decide, by decide,
    (C10_resume_from_pause (run [Event.Up]) ⟨[Event.Up], rfl⟩ (by decide) (by decide)).1,
    (C10_resume_from_pause (run [Event.Up]) ⟨[Event.Up], rfl⟩ (by decide) (by decide)).2.1,
    (C10_resume_from_pause (run [Event.Up]) ⟨[Event.Up], rfl⟩ (by decide) (by decide)).2.2⟩

end Countdown

namespace Countdown

/-- Claim C4: on the tick that drives the count to zero, the timer stops, the
17-segment vibration is requested, the banner is shown and cleared again
within the same event, and the displayed pair is restored from the stored
edit pair. -/
theorem C4_times_up_effects (s : TimerState) (_hm : s.current_mode = .MODE_RUN)
    (hr : s.timer_running = true) (h1 : s.seconds = 1) :
    (step .Tick s).timer_running = false ∧
    (step .Tick s).curr_val = s.init_val ∧
    Effect.vibes_enqueue timer_done_vibe ∈ effectsOf .Tick s ∧
    vibeCount (effectsOf .Tick s) = 1 ∧
    (effectsOf .Tick s)[2]? =
      some (.set_background_color .text_times_up_layer .GColorWhite) ∧
    (effectsOf .Tick s).getLast? =
      some (.set_background_color .text_times_up_layer .GColorBlack) ∧
    timer_done_vibe =
      [75, 200, 75, 200, 75, 500, 75, 200, 75, 200, 75, 500, 75, 200, 75, 200, 75] ∧
    timer_done_vibe.length = 17 := by
  by_cases hz : s.init_val.sec + s.init_val.min = 0 <;>
    simp [step, effectsOf, handle_event, handle_second_tick, decrement_timer,
      hr, h1, hz, vibeCount, isVibe, timer_done_vibe, List.getLast?]

theorem C4_times_up_effects_witness :
    (step .Tick (⟨.MODE_RUN, ⟨0,5⟩, ⟨0,1⟩, true, 1⟩ : TimerState)).timer_running = false ∧
    (step .Tick (⟨.MODE_RUN, ⟨0,5⟩, ⟨0,1⟩, true, 1⟩ : TimerState)).curr_val =
      (⟨.MODE_RUN, ⟨0,5⟩, ⟨0,1⟩, true, 1⟩ : TimerState).init_val ∧
    Effect.vibes_enqueue timer_done_vibe ∈
      effectsOf .Tick (⟨.MODE_RUN, ⟨0,5⟩, ⟨0,1⟩, true, 1⟩ : TimerState) ∧
    vibeCount (effectsOf .Tick (⟨.MODE_RUN, ⟨0,5⟩, ⟨0,1⟩, true, 1⟩ : TimerState)) = 1 ∧
    (effectsOf .Tick (⟨.MODE_RUN, ⟨0,5⟩, ⟨0,1⟩, true, 1⟩ : TimerState))[2]? =
      some (.set_background_color .text_times_up_layer .GColorWhite) ∧
    (effectsOf .Tick (⟨.MODE_RUN, ⟨0,5⟩, ⟨0,1⟩, true, 1⟩ : TimerState)).getLast? =
      some (.set_background_color .text_times_up_layer .GColorBlack) ∧
    timer_done_vibe =
      [75, 200, 75, 200, 75, 500, 75, 200, 75, 200, 75, 500, 75, 200, 75, 200, 75] ∧
    timer_done_vibe.length = 17 :=
  C4_times_up_effects (⟨.MODE_RUN, ⟨0,5⟩, ⟨0,1⟩, true, 1⟩ : TimerState) rfl rfl rfl

theorem tick_step_big (s : TimerState) (hr : s.timer_running = true)
    (h2 : 2 ≤ s.seconds) :
    (step .Tick s).timer_running = true ∧
    (step .Tick s).current_mode = s.current_mode ∧
    (step .Tick s).seconds = s.seconds - 1 ∧
    vibeCount (effectsOf .Tick s) = 0 := by
  have hpos : s.seconds > 0 := by omega
  have hne : ¬(s.seconds - 1 = 0) := by omega
  simp [step, effectsOf, handle_event, handle_second_tick, decrement_timer,
    hr, hpos, hne, vibeCount, isVibe]

theorem tick_step_one (s : TimerState) (hr : s.timer_running = true)
    (h1 : s.seconds = 1) :
    (step .Tick s).timer_running = false ∧
    (step .Tick s).current_mode = s.current_mode ∧
    vibeCount (effectsOf .Tick s) = 1 := by
  by_cases hz : s.init_val.sec + s.init_val.min = 0 <;>
    simp [step, effectsOf, handle_event, handle_second_tick, decrement_timer,
      hr, h1, hz, vibeCount, isVibe]

theorem tick_iterate_state (s : TimerState) (n : Nat)
    (hm : s.current_mode = .MODE_RUN) (hr : s.timer_running = true)
    (hs : s.seconds = (n : Int)) :
    ∀ k, k < n →
      ((step .Tick)^[k] s).timer_running = true ∧
      ((step .Tick)^[k] s).current_mode = .MODE_RUN ∧
      ((step .Tick)^[k] s).seconds = (n : Int) - (k : Int) := by
  intro k
  induction k with
  | zero =>
    intro _
    refine ⟨hr, hm, ?_⟩
    rw [Function.iterate_zero_apply, hs]
    omega
  | succ k ih =>
    intro hk
    obtain ⟨ih1, ih2, ih3⟩ := ih (Nat.lt_of_succ_lt hk)
    have h2 : 2 ≤ ((step .Tick)^[k] s).seconds := by rw [ih3]; omega
    have hb := tick_step_big _ ih1 h2
    rw [Function.iterate_succ_apply']
    refine ⟨hb.1, ?_, ?_⟩
    · rw [hb.2.1, ih2]
    · rw [hb.2.2.1, ih3]; omega

/-- Claim C2: from a running run state with count `n > 0`, exactly `n` ticks
drive the machine to an idle run state, and the times-up vibration fires
exactly at the final tick and at no earlier tick. -/
theorem C2_countdown_fires_once (s : TimerState) (n : Nat)
    (hm : s.current_mode = .MODE_RUN) (hr : s.timer_running = true)
    (hs : s.seconds = (n : Int)) (hn : 0 < n) :
    ((step .Tick)^[n] s).current_mode = .MODE_RUN ∧
    ((step .Tick)^[n] s).timer_running = false ∧
    fireTicks s n = [n - 1] := by
  obtain ⟨m, rfl⟩ : ∃ m, n = m + 1 := ⟨n - 1, by omega⟩
  have hlast := tick_iterate_state s (m + 1) hm hr hs m (by omega)
  have hone : ((step .Tick)^[m] s).seconds = 1 := by rw [hlast.2.2]; omega
  have hfin := tick_step_one _ hlast.1 hone
  refine ⟨?_, ?_, ?_⟩
  · rw [Function.iterate_succ_apply', hfin.2.1, hlast.2.1]
  · rw [Function.iterate_succ_apply']; exact hfin.1
  · unfold fireTicks
    rw [List.range_succ, List.filter_append]
    have hnil : ((List.range m).filter
        fun k => 0 < vibeCount (effectsOf .Tick ((step .Tick)^[k] s))) = [] := by
      rw [List.filter_eq_nil_iff]
      intro k hk
      have hkm : k < m := List.mem_range.mp hk
      have hst := tick_iterate_state s (m + 1) hm hr hs k (by omega)
      have h2 : 2 ≤ ((step .Tick)^[k] s).seconds := by rw [hst.2.2]; omega
      have hb := tick_step_big _ hst.1 h2
      simp [hb.2.2.2]
    rw [hnil]
    simp [hfin.2.2]

theorem C2_countdown_fires_once_witness :
    (0 : Nat) < 3 ∧
    ((step .Tick)^[3] (⟨.MODE_RUN, ⟨0,5⟩, ⟨0,3⟩, true, 3⟩ : TimerState)).current_mode =
      .MODE_RUN ∧
    ((step .Tick)^[3] (⟨.MODE_RUN, ⟨0,5⟩, ⟨0,3⟩, true, 3⟩ : TimerState)).timer_running =
      false ∧
    fireTicks (⟨.MODE_RUN, ⟨0,5⟩, ⟨0,3⟩, true, 3⟩ : TimerState) 3 = [3 - 1] :=
  ⟨by decide,
    C2_countdown_fires_once (⟨.MODE_RUN, ⟨0,5⟩, ⟨0,3⟩, true, 3⟩ : TimerState) 3
      rfl rfl rfl (by decide)⟩

end Countdown

namespace Countdown

theorem iterate_proj (f : TimerState → TimerState) (g : Int → Int)
    (proj : TimerState → Int) (P : TimerState → Prop)
    (hstep : ∀ t, P t → P (f t) ∧ proj (f t) = g (proj t)) :
    ∀ (k : Nat) (t : TimerState), P t →
      P (f^[k] t) ∧ proj (f^[k] t) = g^[k] (proj t) := by
  intro k
  induction k with
  | zero => intro t ht; exact ⟨ht, rfl⟩
  | succ k ih =>
    intro t ht
    obtain ⟨hP, hv⟩ := ih t ht
    obtain ⟨hP2, hv2⟩ := hstep _ hP
    rw [Function.iterate_succ_apply', Function.iterate_succ_apply']
    exact ⟨hP2, by rw [hv2, hv]⟩

theorem up_editsec_proj (t : TimerState) (ht : t.current_mode = .MODE_EDIT_SEC) :
    (step .Up t).current_mode = .MODE_EDIT_SEC ∧
    (step .Up t).init_val.sec = incWrap t.init_val.sec := by
  simp [step, handle_event, up_single_click_handler, ht, incWrap]

theorem down_editsec_proj (t : TimerState) (ht : t.current_mode = .MODE_EDIT_SEC) :
    (step .Down t).current_mode = .MODE_EDIT_SEC ∧
    (step .Down t).init_val.sec = decWrap t.init_val.sec := by
  simp [step, handle_event, down_single_click_handler, ht, decWrap]

theorem up_editmin_proj (t : TimerState) (ht : t.current_mode = .MODE_EDIT_MIN) :
    (step .Up t).current_mode = .MODE_EDIT_MIN ∧
    (step .Up t).init_val.min = incWrap t.init_val.min := by
  simp [step, handle_event, up_single_click_handler, ht, incWrap]

theorem down_editmin_proj (t : TimerState) (ht : t.current_mode = .MODE_EDIT_MIN) :
    (step .Down t).current_mode = .MODE_EDIT_MIN ∧
    (step .Down t).init_val.min = decWrap t.init_val.min := by
  simp [step, handle_event, down_single_click_handler, ht, decWrap]

set_option maxRecDepth 8000 in
theorem incWrap_iterate_60 (n : Int) (h0 : 0 ≤ n) (h59 : n ≤ 59) :
    incWrap^[60] n = n := by
  interval_cases n <;> decide

set_option maxRecDepth 8000 in
theorem decWrap_iterate_60 (n : Int) (h0 : 0 ≤ n) (h59 : n ≤ 59) :
    decWrap^[60] n = n := by
  interval_cases n <;> decide

set_option maxRecDepth 8000 in
/-- Claim C5 counterexample: 59 increments of the seconds edit value starting
from 0 land on 59, not back on 0, so the 59-step wrap law fails. -/
theorem C5_counterexample :
    ((step .Up)^[59] (⟨.MODE_EDIT_SEC, ⟨0,0⟩, ⟨0,0⟩, false, 0⟩ : TimerState)).init_val.sec ≠
      (⟨.MODE_EDIT_SEC, ⟨0,0⟩, ⟨0,0⟩, false, 0⟩ : TimerState).init_val.sec := by
  decide

/-- Claim C5, amended: for an edit value in [0,59], 60 increments return it to
its starting point, and so do 60 decrements, in both edit modes. -/
theorem C5_wrap_amended (s : TimerState)
    (hm0 : 0 ≤ s.init_val.min) (hm59 : s.init_val.min ≤ 59)
    (hs0 : 0 ≤ s.init_val.sec) (hs59 : s.init_val.sec ≤ 59) :
    (s.current_mode = .MODE_EDIT_SEC →
      ((step .Up)^[60] s).init_val.sec = s.init_val.sec ∧
      ((step .Down)^[60] s).init_val.sec = s.init_val.sec) ∧
    (s.current_mode = .MODE_EDIT_MIN →
      ((step .Up)^[60] s).init_val.min = s.init_val.min ∧
      ((step .Down)^[60] s).init_val.min = s.init_val.min) := by
  constructor
  · intro hm
    constructor
    · have h := iterate_proj (step .Up) incWrap (fun t => t.init_val.sec)
        (fun t => t.current_mode = .MODE_EDIT_SEC) up_editsec_proj 60 s hm
      have h2 := h.2
      dsimp only at h2
      rw [h2]
      exact incWrap_iterate_60 _ hs0 hs59
    · have h := iterate_proj (step .Down) decWrap (fun t => t.init_val.sec)
        (fun t => t.current_mode = .MODE_EDIT_SEC) down_editsec_proj 60 s hm
      have h2 := h.2
      dsimp only at h2
      rw [h2]
      exact decWrap_iterate_60 _ hs0 hs59
  · intro hm
    constructor
    · have h := iterate_proj (step .Up) incWrap (fun t => t.init_val.min)
        (fun t => t.current_mode = .MODE_EDIT_MIN) up_editmin_proj 60 s hm
      have h2 := h.2
      dsimp only at h2
      rw [h2]
      exact incWrap_iterate_60 _ hm0 hm59
    · have h := iterate_proj (step .Down) decWrap (fun t => t.init_val.min)
        (fun t => t.current_mode = .MODE_EDIT_MIN) down_editmin_proj 60 s hm
      have h2 := h.2
      dsimp only at h2
      rw [h2]
      exact decWrap_iterate_60 _ hm0 hm59

theorem C5_wrap_amended_witness :
    ((0:Int) ≤ 5 ∧ (5:Int) ≤ 59 ∧ (0:Int) ≤ 30 ∧ (30:Int) ≤ 59) ∧
    (((⟨.MODE_EDIT_SEC, ⟨5,30⟩, ⟨5,30⟩, false, 0⟩ : TimerState).current_mode = .MODE_EDIT_SEC →
      ((step .Up)^[60] (⟨.MODE_EDIT_SEC, ⟨5,30⟩, ⟨5,30⟩, false, 0⟩ : TimerState)).init_val.sec =
        (⟨.MODE_EDIT_SEC, ⟨5,30⟩, ⟨5,30⟩, false, 0⟩ : TimerState).init_val.sec ∧
      ((step .Down)^[60] (⟨.MODE_EDIT_SEC, ⟨5,30⟩, ⟨5,30⟩, false, 0⟩ : TimerState)).init_val.sec =
        (⟨.MODE_EDIT_SEC, ⟨5,30⟩, ⟨5,30⟩, false, 0⟩ : TimerState).init_val.sec) ∧
    ((⟨.MODE_EDIT_SEC, ⟨5,30⟩, ⟨5,30⟩, false, 0⟩ : TimerState).current_mode = .MODE_EDIT_MIN →
      ((step .Up)^[60] (⟨.MODE_EDIT_SEC, ⟨5,30⟩, ⟨5,30⟩, false, 0⟩ : TimerState)).init_val.min =
        (⟨.MODE_EDIT_SEC, ⟨5,30⟩, ⟨5,30⟩, false, 0⟩ : TimerState).init_val.min ∧
      ((step .Down)^[60] (⟨.MODE_EDIT_SEC, ⟨5,30⟩, ⟨5,30⟩, false, 0⟩ : TimerState)).init_val.min =
        (⟨.MODE_EDIT_SEC, ⟨5,30⟩, ⟨5,30⟩, false, 0⟩ : TimerState).init_val.min)) :=
  ⟨⟨by decide, by decide, by decide, by decide⟩,
    C5_wrap_amended (⟨.MODE_EDIT_SEC, ⟨5,30⟩, ⟨5,30⟩, false, 0⟩ : TimerState)
      (by decide) (by decide) (by decide) (by decide)⟩

end Countdown
